import Mathlib

/-!
Shallow embedding of the zfsd event-routing core
(`head/cddl/sbin/zfsd/zfsd_event.cc`).

External collaborators (the devdctl event accessors, libzfs calls, the
CaseFile registry, the ZpoolList/VdevIterator topology readers and the
daemon singleton) are modelled as oracle fields of an environment record;
each routing function is translated as a pure function from that
environment to its C++ return value paired with a trace of the observable
side effects it performs (log lines, case lookups, re-evaluation requests,
case creation, detach commands, rescan requests), listed in execution
order.
-/

namespace Zfsd

/-- Vdev states as in `sys/fs/zfs.h` (`vdev_state_t`): ordered, with
`VDEV_STATE_HEALTHY` the maximum. -/
def VDEV_STATE_UNKNOWN : Nat := 0

/-- Vdev state: closed. -/
def VDEV_STATE_CLOSED : Nat := 1

/-- Vdev state: offline. -/
def VDEV_STATE_OFFLINE : Nat := 2

/-- Vdev state: removed. -/
def VDEV_STATE_REMOVED : Nat := 3

/-- Vdev state: cannot open. -/
def VDEV_STATE_CANT_OPEN : Nat := 4

/-- Vdev state: faulted. -/
def VDEV_STATE_FAULTED : Nat := 5

/-- Vdev state: degraded. -/
def VDEV_STATE_DEGRADED : Nat := 6

/-- Vdev state: healthy (maximum). -/
def VDEV_STATE_HEALTHY : Nat := 7

/-- A DevdCtl guid: a 64-bit id parsed from an event tag; `none` models
`Guid::INVALID_GUID` (unparseable tag). -/
abbrev Guid := Option Nat

/-- Parse a guid from the string value of an event tag
(`DevdCtl::Guid` constructed from a string). -/
def parseGuid (s : String) : Guid := s.toNat?

/-- Render a guid for log messages (`operator<<` on `DevdCtl::Guid`). -/
def guidString : Guid → String
  | none => "INVALID"
  | some n => toString n

/-- The event's key/value tag map (`DevdCtl::NVPairMap`). -/
abbrev NVPairMap := List (String × String)

/-- `DevdCtl::Event::Value(key)`: the value of the first pair with the
given key, or the empty string when the key is absent. -/
def value : NVPairMap → String → String
  | [], _ => ""
  | (k, v) :: rest, key => if k == key then v else value rest key

/-- `DevdCtl::Event::Contains(key)`: whether the tag map has the key. -/
def containsTag : NVPairMap → String → Bool
  | [], _ => false
  | (k, _) :: rest, key => k == key || containsTag rest key

/-- `std::string::find(pat) == 0`, i.e. the string starts with `pat`. -/
def strStartsWith (s pat : String) : Bool := pat.data.isPrefixOf s.data

/-- One observable side effect of a routing call, in execution order. -/
inductive Action : Type where
  /-- `Log(LOG_INFO)`: log the raw event text. -/
  | logEvent : Action
  /-- A `syslog` line with the given message. -/
  | syslog : String → Action
  /-- A caught `ZfsdException` logged via `exp.Log()` with its message. -/
  | logException : String → Action
  /-- `CaseFile::Find(poolGUID, vdevGUID)`. -/
  | caseFindByGuid : Guid → Guid → Action
  /-- `CaseFile::Find(physPath)`: lookup keyed by physical-slot path. -/
  | caseFindByPath : String → Action
  /-- `caseFile->ReEvaluate(event)` on the case with the given id. -/
  | reEvalCase : Nat → Action
  /-- `caseFile->ReEvaluate(devPath, physPath, vdev)`; the flag records
  whether a vdev pointer (label data) was passed (true) or NULL (false). -/
  | reEvalPath : Nat → String → String → Bool → Action
  /-- `CaseFile::Create(vdev)`. -/
  | createCase : Action
  /-- `ReEvaluate(event)` on the case just created by `CaseFile::Create`. -/
  | reEvalNewCase : Action
  /-- `ZfsDaemon::Get().ReplayUnconsumedEvents(discard)`. -/
  | replayUnconsumed : Bool → Action
  /-- `CaseFile::ReEvaluateByGuid(poolGUID, event)`. -/
  | reEvaluateByGuid : Guid → Action
  /-- `ZfsDaemon::RequestSystemRescan()`. -/
  | requestRescan : Action
  /-- `zpool_vdev_detach(hdl, path)`. -/
  | detach : String → Action
  deriving DecidableEq

/-- Result of `Vdev` construction from a device label nvlist: the encoded
vdev state and the pool/vdev guids, or a thrown `ZfsdException` message. -/
structure VdevData : Type where
  state : Nat
  poolGuid : Nat
  guid : Nat
  deriving DecidableEq

/-- Equality on `Vdev`-construction results is decidable. -/
instance exceptVdevDecEq : DecidableEq (Except String VdevData) := fun a b =>
  match a, b with
  | Except.ok x, Except.ok y =>
      if h : x = y then isTrue (by rw [h])
      else isFalse (by intro hh; cases hh; exact h rfl)
  | Except.error x, Except.error y =>
      if h : x = y then isTrue (by rw [h])
      else isFalse (by intro hh; cases hh; exact h rfl)
  | Except.ok _, Except.error _ => isFalse (by intro hh; cases hh)
  | Except.error _, Except.ok _ => isFalse (by intro hh; cases hh)

/-- A device label nvlist (`nvlist_t *devLabel`), abstracted to the result
of constructing a `Vdev` from it. -/
structure Label : Type where
  parse : Except String VdevData
  deriving DecidableEq

/-- Environment of one `DevfsEvent::Process` call: the event's tags plus
the oracles for every external call the routing path makes. -/
structure DevfsEnv : Type where
  /-- The event's key/value pairs. -/
  tags : NVPairMap
  /-- `IsDiskDev()`. -/
  isDiskDev : Bool
  /-- `DevPath(devPath)`: the resolved `/dev` path when available. -/
  devPath : Option String
  /-- Whether `open(devPath, O_RDONLY)` succeeds. -/
  openOk : Bool
  /-- `zpool_in_use`: `none` when the call fails (nonzero return); `some b`
  when it succeeds with `b_inuse = b`. -/
  zpoolInUse : Option Bool
  /-- `zpool_read_label`: `none` when the call fails or yields a NULL
  label; `some lbl` otherwise. -/
  readLabel : Option Label
  /-- `PhysicalPath(physPath)`: the physical-slot path when available. -/
  physPath : Option String
  /-- `DevName(devName)` / `fdevname(devFd)`. -/
  devName : String
  /-- `IsWholeDev()`. -/
  isWholeDev : Bool
  /-- `CaseFile::Find(poolGUID, vdevGUID)`: id of the open case, if any. -/
  caseByGuid : Nat → Nat → Option Nat
  /-- Result of `ReEvaluate(devPath, physPath, vdev)` on a given case. -/
  caseReEvalPath : Nat → Bool
  /-- `CaseFile::Find(physPath)`: id of the open case keyed by the
  physical-slot path, if any. -/
  caseByPath : String → Option Nat

/-- Out-parameters and return value of `DevfsEvent::ReadLabel`. -/
structure ReadLabelOut : Type where
  /-- The returned `nvlist_t *` (NULL modelled as `none`). -/
  devLabel : Option Label
  /-- The `inUse` out-parameter. -/
  inUse : Bool
  /-- The `degraded` out-parameter. -/
  degraded : Bool
  /-- Log lines emitted during the call. -/
  trace : List Action
  deriving DecidableEq

/-- `DevfsEvent::ReadLabel(devFd, inUse, degraded)`: both out-flags start
false; on `zpool_in_use` success `inUse` is set; a failed or NULL label
read returns NULL; a `ZfsdException` from `Vdev` construction is caught,
logged with the device path prepended, and yields NULL. -/
def DevfsEvent.ReadLabel (env : DevfsEnv) : ReadLabelOut :=
  match env.zpoolInUse with
  | none => ⟨none, false, false, []⟩
  | some b_inuse =>
    match env.readLabel with
    | none => ⟨none, b_inuse, false, []⟩
    | some lbl =>
      match lbl.parse with
      | Except.ok vd =>
          ⟨some lbl, b_inuse, vd.state != VDEV_STATE_HEALTHY, []⟩
      | Except.error msg =>
          ⟨none, b_inuse, false,
           [Action.logException
             ("DevfsEvent::ReadLabel: /dev/" ++ env.devName ++ ": " ++ msg)]⟩

/-- `DevfsEvent::OnlineByLabel(devPath, physPath, devConfig)`: parse the
label, look up an open case by (pool guid, vdev guid) and forward a
re-evaluation with the new paths; any `ZfsdException` is caught, logged
with the device path prepended, and treated as no match. -/
def DevfsEvent.OnlineByLabel (env : DevfsEnv) (devPath physPath : String)
    (lbl : Label) : Bool × List Action :=
  let t0 := [Action.syslog ("Interrogating VDEV label for " ++ devPath)]
  match lbl.parse with
  | Except.error msg =>
      (false, t0 ++
        [Action.logException
          ("DevfsEvent::OnlineByLabel: " ++ devPath ++ ": " ++ msg)])
  | Except.ok vd =>
      match env.caseByGuid vd.poolGuid vd.guid with
      | none => (false, t0 ++ [Action.caseFindByGuid (some vd.poolGuid) (some vd.guid)])
      | some c =>
          (env.caseReEvalPath c,
           t0 ++ [Action.caseFindByGuid (some vd.poolGuid) (some vd.guid),
                  Action.reEvalPath c devPath physPath true])

/-- `DevfsEvent::Process()`: the device-arrival routing path. Returns the
C++ boolean (retain for replay) paired with the trace of side effects. -/
def DevfsEvent.Process (env : DevfsEnv) : Bool × List Action :=
  if value env.tags "type" != "CREATE" || !env.isDiskDev then
    (false, [])
  else
    match env.devPath with
    | none => (false, [Action.logEvent])
    | some devPath =>
      if !env.openOk then (false, [Action.logEvent])
      else
        let rl := DevfsEvent.ReadLabel env
        let physPath := env.physPath.getD ""
        let havePhysPath := env.physPath.isSome
        let branch :=
          if rl.inUse && rl.devLabel.isSome then
            match rl.devLabel with
            | some lbl => (DevfsEvent.OnlineByLabel env devPath physPath lbl).snd
            | none => []
          else if rl.degraded then
            [Action.syslog (env.devName ++
              " is marked degraded.  Ignoring as a replace by physical path candidate.")]
          else if havePhysPath && env.isWholeDev then
            match env.caseByPath physPath with
            | none => [Action.caseFindByPath physPath]
            | some c =>
                [Action.caseFindByPath physPath,
                 Action.syslog "Found CaseFile - ReEvaluating",
                 Action.reEvalPath c devPath physPath false]
          else []
        (false, [Action.logEvent] ++ rl.trace ++ branch)

/-- One vdev of a pool's tree, as seen by `ZfsEvent::TryDetach`. -/
structure SVdev : Type where
  isSpare : Bool
  state : Nat
  path : String
  deriving DecidableEq

/-- `ZfsEvent::TryDetach(vdev, cbArg)`: if the vdev is a spare and some
sibling (a child of its parent) is a healthy non-spare, detach the spare;
always return false so the iteration continues. The first component is the
C++ return value, the second the trace. -/
def ZfsEvent.TryDetach (vdev : SVdev) (siblings : List SVdev) :
    Bool × List Action :=
  if vdev.isSpare then
    let cleanup := siblings.any
      (fun sibling => !sibling.isSpare && sibling.state == VDEV_STATE_HEALTHY)
    if cleanup then
      (false, [Action.syslog ("Detaching spare vdev " ++ vdev.path),
               Action.detach vdev.path])
    else (false, [])
  else (false, [])

/-- `VdevIterator::Each(TryDetach, hdl)`: visit the pool's vdevs (each
paired with its parent's children) in order, stopping when the callback
returns true. -/
def eachTryDetach : List (SVdev × List SVdev) → List Action
  | [] => []
  | p :: rest =>
      let r := ZfsEvent.TryDetach p.fst p.snd
      if r.fst then r.snd else r.snd ++ eachTryDetach rest

/-- Environment of one `ZfsEvent::Process` call: the event's tags plus the
oracles for every external call the subsystem routing path makes. -/
structure ZfsEnv : Type where
  /-- The event's key/value pairs. -/
  tags : NVPairMap
  /-- `CaseFile::Find(poolGUID, vdevGUID)`: id of the open case, if any. -/
  caseFind : Guid → Guid → Option Nat
  /-- `VdevState()` of a given case. -/
  caseState : Nat → Nat
  /-- `ReEvaluate(event)` result of a given existing case. -/
  caseReEval : Nat → Bool
  /-- Whether `ZpoolList(ZpoolByGUID, poolGUID)` is nonempty. -/
  poolVisible : Bool
  /-- Whether `VdevIterator(pool).Find(vdevGUID)` is non-NULL. -/
  vdevInPool : Bool
  /-- `ReEvaluate(event)` result of the case created by `Create`. -/
  newCaseReEval : Bool
  /-- The pool's vdevs, each with its parent's children, for
  `CleanupSpares`. -/
  poolVdevs : List (SVdev × List SVdev)

/-- `PoolGUID()` of a `DevdCtl::ZfsEvent` (parsed from the pool id tag). -/
def PoolGUID (tags : NVPairMap) : Guid := parseGuid (value tags "pool_guid")

/-- `VdevGUID()` of a `DevdCtl::ZfsEvent` (parsed from the vdev id tag). -/
def VdevGUID (tags : NVPairMap) : Guid := parseGuid (value tags "vdev_guid")

/-- `ZfsEvent::CleanupSpares()`: if the pool resolves, run `TryDetach`
over every vdev of its tree. -/
def ZfsEvent.CleanupSpares (env : ZfsEnv) : List Action :=
  if env.poolVisible then eachTryDetach env.poolVdevs else []

/-- `ZfsEvent::ProcessPoolEvent()`: pool-scoped routing (returns void, so
only the trace is modelled). -/
def ZfsEvent.ProcessPoolEvent (env : ZfsEnv) : List Action :=
  if value env.tags "type" == "misc.fs.zfs.pool_destroy" then
    [Action.logEvent, Action.reEvaluateByGuid (PoolGUID env.tags)]
  else
    let r :=
      match env.caseFind (PoolGUID env.tags) (VdevGUID env.tags) with
      | some c =>
          let degradedDevice :=
            env.caseState c != VDEV_STATE_UNKNOWN &&
            decide (env.caseState c < VDEV_STATE_HEALTHY)
          (degradedDevice, [Action.logEvent, Action.reEvalCase c])
      | none =>
          if value env.tags "type" == "misc.fs.zfs.resilver_finish" then
            (false, [Action.logEvent] ++ ZfsEvent.CleanupSpares env)
          else (false, ([] : List Action))
    if value env.tags "type" == "misc.fs.zfs.vdev_remove" && !r.fst then
      r.snd ++ [Action.logEvent, Action.requestRescan]
    else r.snd

/-- `ZfsEvent::Process()`: the storage-subsystem routing path. Returns the
C++ boolean (retain for replay) paired with the trace of side effects. -/
def ZfsEvent.Process (env : ZfsEnv) : Bool × List Action :=
  if !containsTag env.tags "class" && !containsTag env.tags "type" then
    (false, [Action.syslog "ZfsEvent::Process: Missing class or type data."])
  else
    let t1 :=
      if strStartsWith (value env.tags "type") "misc.fs.zfs.config_sync" then
        [Action.replayUnconsumed true,
         Action.reEvaluateByGuid (PoolGUID env.tags)]
      else []
    if strStartsWith (value env.tags "type") "misc.fs.zfs." then
      (false, t1 ++ ZfsEvent.ProcessPoolEvent env)
    else if !containsTag env.tags "pool_guid" || !containsTag env.tags "vdev_guid" then
      (false, t1)
    else
      match env.caseFind (PoolGUID env.tags) (VdevGUID env.tags) with
      | some c =>
          (false, t1 ++ [Action.logEvent,
            Action.syslog "Evaluating existing case file",
            Action.reEvalCase c])
      | none =>
          if strStartsWith (value env.tags "class") "fs.zfs.vdev.no_replicas" then
            (false, t1 ++ [Action.logEvent,
              Action.syslog ("No replicas available for pool " ++
                guidString (PoolGUID env.tags) ++ ", ignoring")])
          else if !env.poolVisible then
            (true, t1 ++ [Action.logEvent,
              Action.syslog "ZfsEvent::Process: Event for unknown pool queued"])
          else if !env.vdevInPool then
            (true, t1 ++ [Action.logEvent,
              Action.syslog "ZfsEvent::Process: Event for unknown vdev queued"])
          else if env.newCaseReEval then
            (false, t1 ++ [Action.createCase, Action.reEvalNewCase])
          else
            (true, t1 ++ [Action.createCase, Action.reEvalNewCase,
              Action.logEvent,
              Action.syslog "ZfsEvent::Process: Unconsumed event queued"])

/-- A concrete arrival environment: CREATE disk event whose label parses
to a degraded vdev, not claimed by any live pool, with an open case keyed
by the physical-slot path. -/
def devfsEnvDeg : DevfsEnv where
  tags := [("type", "CREATE"), ("cdev", "da1")]
  isDiskDev := true
  devPath := some "/dev/da1"
  openOk := true
  zpoolInUse := some false
  readLabel := some ⟨Except.ok ⟨VDEV_STATE_DEGRADED, 42, 7⟩⟩
  physPath := some "id1,enc@n50/type@0/slot@1"
  devName := "da1"
  isWholeDev := true
  caseByGuid := fun _ _ => none
  caseReEvalPath := fun _ => true
  caseByPath := fun _ => some 5

/-- A concrete arrival environment whose type tag is not CREATE. -/
def devfsEnvOther : DevfsEnv where
  tags := [("type", "DESTROY"), ("cdev", "da1")]
  isDiskDev := true
  devPath := some "/dev/da1"
  openOk := true
  zpoolInUse := some false
  readLabel := none
  physPath := none
  devName := "da1"
  isWholeDev := false
  caseByGuid := fun _ _ => none
  caseReEvalPath := fun _ => false
  caseByPath := fun _ => none

/-- A concrete arrival environment where the in-use query fails, so no
label is read. -/
def devfsEnvNoLabel : DevfsEnv where
  tags := [("type", "CREATE"), ("cdev", "da3")]
  isDiskDev := true
  devPath := some "/dev/da3"
  openOk := true
  zpoolInUse := none
  readLabel := none
  physPath := none
  devName := "da3"
  isWholeDev := true
  caseByGuid := fun _ _ => none
  caseReEvalPath := fun _ => false
  caseByPath := fun _ => none

/-- A concrete arrival environment where the label nvlist is present but
`Vdev` construction throws. -/
def devfsEnvParseErr : DevfsEnv where
  tags := [("type", "CREATE"), ("cdev", "da2")]
  isDiskDev := true
  devPath := some "/dev/da2"
  openOk := true
  zpoolInUse := some true
  readLabel := some ⟨Except.error "Unable to extract vdev state"⟩
  physPath := none
  devName := "da2"
  isWholeDev := true
  caseByGuid := fun _ _ => none
  caseReEvalPath := fun _ => false
  caseByPath := fun _ => none

/-- A concrete subsystem environment: vdev-scoped event for a pool that
is not currently visible. -/
def zfsEnvUnknownPool : ZfsEnv where
  tags := [("class", "ereport.fs.zfs.checksum"), ("type", "ereport.fs.zfs.checksum"),
           ("pool_guid", "42"), ("vdev_guid", "7")]
  caseFind := fun _ _ => none
  caseState := fun _ => VDEV_STATE_UNKNOWN
  caseReEval := fun _ => true
  poolVisible := false
  vdevInPool := false
  newCaseReEval := false
  poolVdevs := []

/-- A concrete subsystem environment: config-sync checkpoint event. -/
def zfsEnvSync : ZfsEnv where
  tags := [("type", "misc.fs.zfs.config_sync"), ("pool_guid", "42")]
  caseFind := fun _ _ => none
  caseState := fun _ => VDEV_STATE_UNKNOWN
  caseReEval := fun _ => true
  poolVisible := true
  vdevInPool := true
  newCaseReEval := true
  poolVdevs := []

/-- A concrete subsystem environment: vdev-scoped event missing the vdev
id tag. -/
def zfsEnvMissingGuid : ZfsEnv where
  tags := [("class", "ereport.fs.zfs.io"), ("pool_guid", "42")]
  caseFind := fun _ _ => none
  caseState := fun _ => VDEV_STATE_UNKNOWN
  caseReEval := fun _ => true
  poolVisible := true
  vdevInPool := true
  newCaseReEval := true
  poolVdevs := []

/-- A concrete subsystem environment: no-surviving-replicas event with no
open case (the spec's end-to-end example, pool 9 vdev 3). -/
def zfsEnvNoReplicas : ZfsEnv where
  tags := [("class", "fs.zfs.vdev.no_replicas"),
           ("pool_guid", "9"), ("vdev_guid", "3")]
  caseFind := fun _ _ => none
  caseState := fun _ => VDEV_STATE_UNKNOWN
  caseReEval := fun _ => true
  poolVisible := true
  vdevInPool := true
  newCaseReEval := true
  poolVdevs := []

/-- A concrete pool-event environment: vdev-removed notification with no
matching open case. -/
def zfsEnvRemove : ZfsEnv where
  tags := [("type", "misc.fs.zfs.vdev_remove"),
           ("pool_guid", "42"), ("vdev_guid", "7")]
  caseFind := fun _ _ => none
  caseState := fun _ => VDEV_STATE_UNKNOWN
  caseReEval := fun _ => true
  poolVisible := true
  vdevInPool := true
  newCaseReEval := true
  poolVdevs := []

/-- The spec's spare-reclaim example: a spare child S. -/
def spareS : SVdev := ⟨true, VDEV_STATE_HEALTHY, "s"⟩

/-- The spec's spare-reclaim example: a faulted non-spare child F. -/
def faultedF : SVdev := ⟨false, VDEV_STATE_FAULTED, "f"⟩

/-- The spec's spare-reclaim example: a healthy non-spare child H. -/
def healthyH : SVdev := ⟨false, VDEV_STATE_HEALTHY, "h"⟩

/-! Helper lemmas shared by the claim theorems. -/

/-- A key whose value is looked up as nonempty is present in the map. -/
theorem containsTag_of_value_ne (m : NVPairMap) (k : String)
    (h : value m k ≠ "") : containsTag m k = true := by
  induction m with
  | nil => exact absurd rfl h
  | cons p rest ih =>
    obtain ⟨a, b⟩ := p
    simp only [value] at h
    simp only [containsTag]
    by_cases hk : (a == k) = true
    · rw [hk]; rfl
    · rw [Bool.not_eq_true] at hk
      rw [hk] at h
      rw [hk]
      simp only [Bool.false_or]
      exact ih h

/-- An absent key looks up to the empty string. -/
theorem value_of_not_containsTag (m : NVPairMap) (k : String)
    (h : containsTag m k = false) : value m k = "" := by
  induction m with
  | nil => rfl
  | cons p rest ih =>
    obtain ⟨a, b⟩ := p
    simp only [containsTag, Bool.or_eq_false_iff] at h
    simp only [value, h.1]
    exact ih h.2

/-- `List.isPrefixOf` is transitive on character lists. -/
theorem charsIsPrefixOf_trans : ∀ (l1 l2 l3 : List Char),
    l1.isPrefixOf l2 = true → l2.isPrefixOf l3 = true → l1.isPrefixOf l3 = true
  | [], _, _, _, _ => by simp [List.isPrefixOf]
  | _ :: _, [], _, h, _ => by simp [List.isPrefixOf] at h
  | _ :: _, _ :: _, [], _, h => by simp [List.isPrefixOf] at h
  | a :: as, b :: bs, c :: cs, h1, h2 => by
      simp only [List.isPrefixOf, Bool.and_eq_true, beq_iff_eq] at h1 h2 ⊢
      exact ⟨h1.1.trans h2.1, charsIsPrefixOf_trans as bs cs h1.2 h2.2⟩

/-- A string starting with the config-sync marker also carries the
storage-subsystem namespace prefix. -/
theorem misc_of_configSync (s : String)
    (h : strStartsWith s "misc.fs.zfs.config_sync" = true) :
    strStartsWith s "misc.fs.zfs." = true :=
  charsIsPrefixOf_trans _ _ _ (by decide) h

/-- A string without the storage-subsystem prefix does not start with the
config-sync marker. -/
theorem not_configSync_of_not_misc (s : String)
    (h : strStartsWith s "misc.fs.zfs." = false) :
    strStartsWith s "misc.fs.zfs.config_sync" = false := by
  cases hc : strStartsWith s "misc.fs.zfs.config_sync" with
  | false => rfl
  | true => rw [misc_of_configSync s hc] at h; exact Bool.noConfusion h

/-- The trace of `ReadLabel` is empty or a single caught-exception log. -/
theorem readLabel_trace_shape (env : DevfsEnv) :
    (DevfsEvent.ReadLabel env).trace = [] ∨
    ∃ m, (DevfsEvent.ReadLabel env).trace = [Action.logException m] := by
  cases hz : env.zpoolInUse with
  | none => exact Or.inl (by simp [DevfsEvent.ReadLabel, hz])
  | some b =>
    cases hr : env.readLabel with
    | none => exact Or.inl (by simp [DevfsEvent.ReadLabel, hz, hr])
    | some lbl =>
      cases hp : lbl.parse with
      | ok vd => exact Or.inl (by simp [DevfsEvent.ReadLabel, hz, hr, hp])
      | error m =>
        exact Or.inr ⟨"DevfsEvent::ReadLabel: /dev/" ++ env.devName ++ ": " ++ m,
          by simp [DevfsEvent.ReadLabel, hz, hr, hp]⟩

/-- C5: every device-arrival event comes back not-retained
(`DevfsEvent::Process` returns false), and when the type tag is not
exactly "CREATE" or the device is not a disk-class node the routing call
additionally performs no case lookup and no other observable side effect
(empty trace). -/
theorem devfs_process_never_retained (env : DevfsEnv) :
    (DevfsEvent.Process env).fst = false ∧
    (value env.tags "type" ≠ "CREATE" ∨ env.isDiskDev = false →
      DevfsEvent.Process env = (false, [])) := by
  constructor
  · unfold DevfsEvent.Process
    split
    · rfl
    · split
      · rfl
      · split
        · rfl
        · rfl
  · rintro (h | h)
    · have hb : (value env.tags "type" != "CREATE") = true := by
        simp [bne_iff_ne, h]
      simp [DevfsEvent.Process, hb]
    · simp [DevfsEvent.Process, h]

/-- C5 witness: a concrete non-CREATE arrival event is consumed with an
empty trace. -/
theorem devfs_process_never_retained_witness :
    (DevfsEvent.Process devfsEnvOther).fst = false ∧
    DevfsEvent.Process devfsEnvOther = (false, []) :=
  ⟨(devfs_process_never_retained devfsEnvOther).1,
   (devfs_process_never_retained devfsEnvOther).2 (Or.inl (by decide))⟩

/-- C10: whenever `ReadLabel` returns absent metadata (NULL) its degraded
out-flag is false; and degraded is reported true only together with a
successfully read and parsed label. -/
theorem readLabel_degraded_requires_label (env : DevfsEnv) :
    ((DevfsEvent.ReadLabel env).devLabel = none →
      (DevfsEvent.ReadLabel env).degraded = false) ∧
    ((DevfsEvent.ReadLabel env).degraded = true →
      ∃ lbl, (DevfsEvent.ReadLabel env).devLabel = some lbl ∧
        env.readLabel = some lbl) := by
  cases hz : env.zpoolInUse with
  | none => exact ⟨fun _ => by simp [DevfsEvent.ReadLabel, hz],
      fun h => absurd h (by simp [DevfsEvent.ReadLabel, hz])⟩
  | some b =>
    cases hr : env.readLabel with
    | none => exact ⟨fun _ => by simp [DevfsEvent.ReadLabel, hz, hr],
        fun h => absurd h (by simp [DevfsEvent.ReadLabel, hz, hr])⟩
    | some lbl =>
      cases hp : lbl.parse with
      | ok vd =>
        refine ⟨fun h => absurd h (by simp [DevfsEvent.ReadLabel, hz, hr, hp]),
          fun _ => ⟨lbl, ?_, rfl⟩⟩
        simp [DevfsEvent.ReadLabel, hz, hr, hp]
      | error m => exact ⟨fun _ => by simp [DevfsEvent.ReadLabel, hz, hr, hp],
          fun h => absurd h (by simp [DevfsEvent.ReadLabel, hz, hr, hp])⟩

/-- C10 witness: with a failed in-use query the label is absent and
degraded is false; with a parsed degraded label the metadata is present. -/
theorem readLabel_degraded_requires_label_witness :
    (DevfsEvent.ReadLabel devfsEnvNoLabel).degraded = false ∧
    ∃ lbl, (DevfsEvent.ReadLabel devfsEnvDeg).devLabel = some lbl ∧
      devfsEnvDeg.readLabel = some lbl :=
  ⟨(readLabel_degraded_requires_label devfsEnvNoLabel).1 (by decide),
   (readLabel_degraded_requires_label devfsEnvDeg).2 (by decide)⟩

/-- C7: a structured-data error thrown while constructing a device-tree
node from the embedded label is caught inside `ReadLabel`, logged with the
source device path prepended as context, and converted into the
absent-metadata result (NULL, degraded false) instead of propagating. -/
theorem readLabel_parse_error_to_null (env : DevfsEnv) (b : Bool)
    (lbl : Label) (m : String)
    (h1 : env.zpoolInUse = some b) (h2 : env.readLabel = some lbl)
    (h3 : lbl.parse = Except.error m) :
    DevfsEvent.ReadLabel env =
      ⟨none, b, false,
       [Action.logException
         ("DevfsEvent::ReadLabel: /dev/" ++ env.devName ++ ": " ++ m)]⟩ := by
  simp [DevfsEvent.ReadLabel, h1, h2, h3]

/-- C7 witness: the concrete parse-error environment yields NULL metadata
and the contextualised log line. -/
theorem readLabel_parse_error_to_null_witness :
    DevfsEvent.ReadLabel devfsEnvParseErr =
      ⟨none, true, false,
       [Action.logException
         ("DevfsEvent::ReadLabel: /dev/" ++ devfsEnvParseErr.devName ++ ": " ++
          "Unable to extract vdev state")]⟩ :=
  readLabel_parse_error_to_null devfsEnvParseErr true
    ⟨Except.error "Unable to extract vdev state"⟩ "Unable to extract vdev state"
    rfl rfl rfl

/-- C1: an arrival event whose label reads degraded on a device not in use
by a live pool takes the log-and-stop branch: the routing call returns
false and its trace has no physical-path case lookup and no re-evaluation
forward, even though an open case keyed by the physical path exists. -/
theorem degraded_device_never_matched_by_physpath (env : DevfsEnv)
    (hty : value env.tags "type" = "CREATE")
    (hdisk : env.isDiskDev = true)
    (hdp : env.devPath.isSome = true)
    (hopen : env.openOk = true)
    (hiu : (DevfsEvent.ReadLabel env).inUse = false)
    (hdeg : (DevfsEvent.ReadLabel env).degraded = true)
    (_hcase : (env.caseByPath (env.physPath.getD "")).isSome = true) :
    (DevfsEvent.Process env).fst = false ∧
    Action.syslog (env.devName ++
        " is marked degraded.  Ignoring as a replace by physical path candidate.")
      ∈ (DevfsEvent.Process env).snd ∧
    (∀ p, Action.caseFindByPath p ∉ (DevfsEvent.Process env).snd) ∧
    (∀ c dp pp withVdev,
      Action.reEvalPath c dp pp withVdev ∉ (DevfsEvent.Process env).snd) := by
  obtain ⟨dp, hdp'⟩ := Option.isSome_iff_exists.mp hdp
  have hP : DevfsEvent.Process env =
      (false, [Action.logEvent] ++ (DevfsEvent.ReadLabel env).trace ++
        [Action.syslog (env.devName ++
          " is marked degraded.  Ignoring as a replace by physical path candidate.")]) := by
    unfold DevfsEvent.Process
    rw [hty, hdp']
    simp [hdisk, hopen, hiu, hdeg]
  rw [hP]
  rcases readLabel_trace_shape env with hsh | ⟨m, hsh⟩ <;> rw [hsh] <;>
    exact ⟨rfl, by simp, fun p => by simp, fun c dp2 pp wv => by simp⟩

/-- C1 witness: the concrete degraded-arrival environment, which has an
open case keyed by its physical path, is consumed without any
physical-path lookup or re-evaluation. -/
theorem degraded_device_never_matched_by_physpath_witness :
    (DevfsEvent.Process devfsEnvDeg).fst = false ∧
    (∀ p, Action.caseFindByPath p ∉ (DevfsEvent.Process devfsEnvDeg).snd) ∧
    (∀ c dp pp withVdev,
      Action.reEvalPath c dp pp withVdev ∉ (DevfsEvent.Process devfsEnvDeg).snd) := by
  have h := degraded_device_never_matched_by_physpath devfsEnvDeg
    (by decide) (by decide) (by decide) (by decide) (by decide) (by decide) (by decide)
  exact ⟨h.1, h.2.2.1, h.2.2.2⟩

/-- The sibling scan of `TryDetach` succeeds exactly when some sibling is
a healthy non-spare. -/
theorem anyHealthyNonSpare_iff (siblings : List SVdev) :
    siblings.any (fun s => !s.isSpare && s.state == VDEV_STATE_HEALTHY) = true ↔
      ∃ s ∈ siblings, s.isSpare = false ∧ s.state = VDEV_STATE_HEALTHY := by
  simp [List.any_eq_true, Bool.and_eq_true, Bool.not_eq_true', beq_iff_eq]

/-- C4: `TryDetach` issues a detach command exactly when the device is
flagged as a spare and some child of its parent is a healthy non-spare;
it always returns false, so the surrounding tree walk never stops early
and visits every vdev. -/
theorem tryDetach_spare_reclaim (vdev : SVdev) (siblings : List SVdev) :
    (Action.detach vdev.path ∈ (ZfsEvent.TryDetach vdev siblings).snd ↔
      vdev.isSpare = true ∧
        ∃ s ∈ siblings, s.isSpare = false ∧ s.state = VDEV_STATE_HEALTHY) ∧
    (ZfsEvent.TryDetach vdev siblings).fst = false ∧
    (∀ l : List (SVdev × List SVdev),
      eachTryDetach l =
        (l.map fun p => (ZfsEvent.TryDetach p.fst p.snd).snd).flatten) := by
  have hfst : ∀ (v : SVdev) (sb : List SVdev),
      (ZfsEvent.TryDetach v sb).fst = false := by
    intro v sb
    cases hs : v.isSpare <;>
      cases hc : sb.any (fun s => !s.isSpare && s.state == VDEV_STATE_HEALTHY) <;>
        simp [ZfsEvent.TryDetach, hs, hc]
  refine ⟨?_, hfst vdev siblings, ?_⟩
  · cases hs : vdev.isSpare with
    | false => simp [ZfsEvent.TryDetach, hs]
    | true =>
      cases hc : siblings.any
          (fun s => !s.isSpare && s.state == VDEV_STATE_HEALTHY) with
      | false =>
        have hno : ¬ ∃ s ∈ siblings,
            s.isSpare = false ∧ s.state = VDEV_STATE_HEALTHY := by
          intro hex
          rw [(anyHealthyNonSpare_iff siblings).mpr hex] at hc
          exact Bool.noConfusion hc
        simp [ZfsEvent.TryDetach, hs, hc, hno]
      | true =>
        have hyes := (anyHealthyNonSpare_iff siblings).mp hc
        simp [ZfsEvent.TryDetach, hs, hc, hyes]
  · intro l
    induction l with
    | nil => rfl
    | cons p rest ih =>
      simp only [eachTryDetach, hfst p.fst p.snd, List.map, List.flatten, ih]
      simp

/-- C4 witness: with siblings {spare S, faulted F, healthy H} the spare is
detached; with siblings {spare S, faulted F} it is not. -/
theorem tryDetach_spare_reclaim_witness :
    Action.detach "s" ∈
      (ZfsEvent.TryDetach spareS [spareS, faultedF, healthyH]).snd ∧
    Action.detach "s" ∉
      (ZfsEvent.TryDetach spareS [spareS, faultedF]).snd := by
  constructor
  · exact (tryDetach_spare_reclaim spareS [spareS, faultedF, healthyH]).1.mpr
      ⟨rfl, healthyH, by decide, rfl, rfl⟩
  · intro hmem
    have h := (tryDetach_spare_reclaim spareS [spareS, faultedF]).1.mp hmem
    revert h
    decide

/-- C3: on a configuration-synchronized subsystem event the router first
replays all deferred events with discard set, then re-evaluates every open
case of this pool against the event, then routes to the pool-event handler
and returns false (never retained). -/
theorem config_sync_flush_then_pool_route (env : ZfsEnv)
    (h : strStartsWith (value env.tags "type") "misc.fs.zfs.config_sync" = true) :
    ZfsEvent.Process env =
      (false, Action.replayUnconsumed true ::
        Action.reEvaluateByGuid (PoolGUID env.tags) ::
        ZfsEvent.ProcessPoolEvent env) := by
  have hmisc := misc_of_configSync _ h
  have hty : containsTag env.tags "type" = true := by
    apply containsTag_of_value_ne
    intro he
    rw [he] at h
    exact absurd h (by decide)
  unfold ZfsEvent.Process
  simp [hty, h, hmisc]

/-- C3 witness: a concrete config-sync event replays the queue, flushes
the pool's cases and routes to the pool handler, consumed. -/
theorem config_sync_flush_then_pool_route_witness :
    ZfsEvent.Process zfsEnvSync =
      (false, Action.replayUnconsumed true ::
        Action.reEvaluateByGuid (PoolGUID zfsEnvSync.tags) ::
        ZfsEvent.ProcessPoolEvent zfsEnvSync) :=
  config_sync_flush_then_pool_route zfsEnvSync (by decide)

/-- C6: a subsystem event without the storage-subsystem type prefix that
is missing the pool id tag or the device id tag is discarded: the router
returns false, never retained. -/
theorem vdev_event_missing_guid_discarded (env : ZfsEnv)
    (hmisc : strStartsWith (value env.tags "type") "misc.fs.zfs." = false)
    (hmiss : containsTag env.tags "pool_guid" = false ∨
      containsTag env.tags "vdev_guid" = false) :
    (ZfsEvent.Process env).fst = false := by
  have hcs := not_configSync_of_not_misc _ hmisc
  unfold ZfsEvent.Process
  cases hg : (!containsTag env.tags "class" && !containsTag env.tags "type") with
  | true => simp [hg]
  | false => rcases hmiss with hm | hm <;> simp [hg, hcs, hmisc, hm]

/-- C6 witness: a concrete vdev-scoped event missing its vdev id tag is
not retained. -/
theorem vdev_event_missing_guid_discarded_witness :
    (ZfsEvent.Process zfsEnvMissingGuid).fst = false :=
  vdev_event_missing_guid_discarded zfsEnvMissingGuid (by decide)
    (Or.inr (by decide))

/-- C2: a vdev-scoped subsystem event with both id tags, no matching open
case and a class other than no-surviving-replicas is retained for replay
exactly when the pool is not visible, or the vdev is not in the pool's
tree, or the newly created case leaves the event unconsumed; in the first
two outcomes no case is created, and when the new case consumes the event
the router returns false. -/
theorem vdev_event_retention (env : ZfsEnv)
    (hct : containsTag env.tags "class" = true ∨ containsTag env.tags "type" = true)
    (hmisc : strStartsWith (value env.tags "type") "misc.fs.zfs." = false)
    (hpg : containsTag env.tags "pool_guid" = true)
    (hvg : containsTag env.tags "vdev_guid" = true)
    (hcf : env.caseFind (PoolGUID env.tags) (VdevGUID env.tags) = none)
    (hnr : strStartsWith (value env.tags "class") "fs.zfs.vdev.no_replicas" = false) :
    ((ZfsEvent.Process env).fst = true ↔
      (env.poolVisible = false ∨ env.vdevInPool = false ∨
        env.newCaseReEval = false)) ∧
    (env.poolVisible = false ∨ env.vdevInPool = false →
      Action.createCase ∉ (ZfsEvent.Process env).snd) ∧
    (env.poolVisible = true → env.vdevInPool = true → env.newCaseReEval = true →
      (ZfsEvent.Process env).fst = false) := by
  have hcs := not_configSync_of_not_misc _ hmisc
  have hguard : (!containsTag env.tags "class" && !containsTag env.tags "type") = false := by
    rcases hct with h | h <;> simp [h]
  have hP : ZfsEvent.Process env =
      (if !env.poolVisible then
        (true, [Action.logEvent,
          Action.syslog "ZfsEvent::Process: Event for unknown pool queued"])
      else if !env.vdevInPool then
        (true, [Action.logEvent,
          Action.syslog "ZfsEvent::Process: Event for unknown vdev queued"])
      else if env.newCaseReEval then
        (false, [Action.createCase, Action.reEvalNewCase])
      else
        (true, [Action.createCase, Action.reEvalNewCase, Action.logEvent,
          Action.syslog "ZfsEvent::Process: Unconsumed event queued"])) := by
    unfold ZfsEvent.Process
    simp [hguard, hcs, hmisc, hpg, hvg, hcf, hnr]
  rw [hP]
  cases hpv : env.poolVisible <;> cases hvp : env.vdevInPool <;>
    cases hnc : env.newCaseReEval <;> simp

/-- C2 witness: a concrete event for a pool that is not visible is
retained and creates no case. -/
theorem vdev_event_retention_witness :
    (ZfsEvent.Process zfsEnvUnknownPool).fst = true ∧
    Action.createCase ∉ (ZfsEvent.Process zfsEnvUnknownPool).snd := by
  have h := vdev_event_retention zfsEnvUnknownPool (Or.inl (by decide))
    (by decide) (by decide) (by decide) rfl (by decide)
  exact ⟨h.1.mpr (Or.inl rfl), h.2.1 (Or.inl rfl)⟩

/-- C8: a vdev-scoped subsystem event with both id tags, no matching open
case and the no-surviving-replicas class is logged at informational
severity and discarded: the router returns false and creates no case. -/
theorem no_replicas_discarded (env : ZfsEnv)
    (hmisc : strStartsWith (value env.tags "type") "misc.fs.zfs." = false)
    (hpg : containsTag env.tags "pool_guid" = true)
    (hvg : containsTag env.tags "vdev_guid" = true)
    (hcf : env.caseFind (PoolGUID env.tags) (VdevGUID env.tags) = none)
    (hnr : strStartsWith (value env.tags "class") "fs.zfs.vdev.no_replicas" = true) :
    ZfsEvent.Process env =
      (false, [Action.logEvent,
        Action.syslog ("No replicas available for pool " ++
          guidString (PoolGUID env.tags) ++ ", ignoring")]) ∧
    Action.createCase ∉ (ZfsEvent.Process env).snd := by
  have hcs := not_configSync_of_not_misc _ hmisc
  have hcls : containsTag env.tags "class" = true := by
    apply containsTag_of_value_ne
    intro he
    rw [he] at hnr
    exact absurd hnr (by decide)
  have hguard : (!containsTag env.tags "class" && !containsTag env.tags "type") = false := by
    simp [hcls]
  have hP : ZfsEvent.Process env =
      (false, [Action.logEvent,
        Action.syslog ("No replicas available for pool " ++
          guidString (PoolGUID env.tags) ++ ", ignoring")]) := by
    unfold ZfsEvent.Process
    simp [hguard, hcs, hmisc, hpg, hvg, hcf, hnr]
  exact ⟨hP, by rw [hP]; simp⟩

/-- C8 witness: the spec's end-to-end no-replicas event (pool 9, vdev 3)
with no existing case is logged, returns false and creates no case. -/
theorem no_replicas_discarded_witness :
    ZfsEvent.Process zfsEnvNoReplicas =
      (false, [Action.logEvent,
        Action.syslog ("No replicas available for pool " ++
          guidString (PoolGUID zfsEnvNoReplicas.tags) ++ ", ignoring")]) ∧
    Action.createCase ∉ (ZfsEvent.Process zfsEnvNoReplicas).snd :=
  no_replicas_discarded zfsEnvNoReplicas (by decide) (by decide) (by decide)
    rfl (by decide)

/-- C9: on a vdev-removed pool event, a system-wide rescan is requested
exactly when the device was not already tracked as degraded: no open case
matches, or the matching case's state is unknown or not below healthy. -/
theorem vdev_remove_rescan (env : ZfsEnv)
    (h : value env.tags "type" = "misc.fs.zfs.vdev_remove") :
    Action.requestRescan ∈ ZfsEvent.ProcessPoolEvent env ↔
      ∀ c, env.caseFind (PoolGUID env.tags) (VdevGUID env.tags) = some c →
        env.caseState c = VDEV_STATE_UNKNOWN ∨
        VDEV_STATE_HEALTHY ≤ env.caseState c := by
  have e1 : (("misc.fs.zfs.vdev_remove" : String) == "misc.fs.zfs.pool_destroy") = false := by
    decide
  have e2 : (("misc.fs.zfs.vdev_remove" : String) == "misc.fs.zfs.resilver_finish") = false := by
    decide
  have e3 : (("misc.fs.zfs.vdev_remove" : String) == "misc.fs.zfs.vdev_remove") = true := by
    decide
  unfold ZfsEvent.ProcessPoolEvent
  rw [h]
  cases hcf : env.caseFind (PoolGUID env.tags) (VdevGUID env.tags) with
  | none =>
    simp only [e1, e2, e3, if_false, Bool.false_eq_true, hcf]
    simp
  | some c =>
    by_cases h0 : env.caseState c = VDEV_STATE_UNKNOWN
    · simp only [e1, e2, e3, hcf]
      simp [h0]
    · by_cases hlt : env.caseState c < VDEV_STATE_HEALTHY
      · have hd : (env.caseState c != VDEV_STATE_UNKNOWN &&
            decide (env.caseState c < VDEV_STATE_HEALTHY)) = true := by
          simp [bne_iff_ne, h0, hlt]
        simp only [e1, e2, e3, hcf, hd]
        simp only [Bool.not_true, Bool.and_false, if_false, Bool.false_eq_true]
        constructor
        · intro hmem
          simp at hmem
        · intro hall
          rcases hall c rfl with h1 | h1
          · exact absurd h1 h0
          · exact absurd hlt (Nat.not_lt.mpr h1)
      · have hd : (env.caseState c != VDEV_STATE_UNKNOWN &&
            decide (env.caseState c < VDEV_STATE_HEALTHY)) = false := by
          simp [hlt]
        simp only [e1, e2, e3, hcf, hd]
        simp only [Bool.not_false, Bool.and_true, e3, if_true]
        constructor
        · intro _ c2 hc2
          have : c2 = c := (Option.some_inj.mp hc2).symm
          subst this
          exact Or.inr (Nat.not_lt.mp hlt)
        · intro _
          simp

/-- C9 witness: a concrete vdev-removed event with no matching open case
requests a system-wide rescan. -/
theorem vdev_remove_rescan_witness :
    Action.requestRescan ∈ ZfsEvent.ProcessPoolEvent zfsEnvRemove :=
  (vdev_remove_rescan zfsEnvRemove (by decide)).mpr
    (fun _ hc => Option.noConfusion hc)

end Zfsd
